import Mathlib

/-!
Verification of the IndiaBix current-affairs ingestion pipeline.

This file is a shallow embedding of the Python sources of the repository
(`scraper.py`, `custom_scraper.py`, `main.py`, `db_utils.py`,
`practice_sets.py`) into Lean 4, together with theorems settling the
frozen claims about the system.

Modelling conventions:
  * Python strings are Lean `String`s; where character-level reasoning is
    needed the `List Char` view (`String.data`) is used.
  * Python dicts holding heterogeneous question data are association lists
    over a small value type (`PyVal`); a missing key (Python `KeyError`)
    is an `Except.error` carrying the key.
  * The MongoDB ledger collection is the list of stored URL strings, in
    insertion order.
  * The MySQL store is reduced to the tables the claims mention
    (`practice_sets`, `practice_set_questions`) plus an id counter for
    `lastrowid`.  Database connectivity, random codes/slugs and
    timestamps are abstracted away: connections are modelled as always
    available, and per-row insert failures are modelled by boolean
    oracles where the source catches per-row errors.
  * HTTP traffic is an explicit `HttpResult` input; the translation
    service is an explicit sequence of per-call outcomes.
  * Unbounded Python `while` loops are embedded with explicit fuel; the
    value `none` means the loop has not returned within the given fuel.
-/

/-! ### Decimal digits and Python string formatting -/

/-- The character for a single decimal digit (used by `str` formatting). -/
def digitChar : Nat → Char
  | 0 => '0' | 1 => '1' | 2 => '2' | 3 => '3' | 4 => '4'
  | 5 => '5' | 6 => '6' | 7 => '7' | 8 => '8' | _ => '9'

/-- The value of a decimal digit character, `none` for non-digits. -/
def digitVal? (c : Char) : Option Nat :=
  if c = '0' then some 0 else if c = '1' then some 1 else if c = '2' then some 2
  else if c = '3' then some 3 else if c = '4' then some 4 else if c = '5' then some 5
  else if c = '6' then some 6 else if c = '7' then some 7 else if c = '8' then some 8
  else if c = '9' then some 9 else none

/-- Little-endian decimal digits of `n`, fuelled (the fuel only needs to be
at least `n` for the result to be the true digit list). -/
def decDigitsAux : Nat → Nat → List Nat
  | _, 0 => []
  | 0, _ + 1 => []
  | f + 1, n + 1 => (n + 1) % 10 :: decDigitsAux f ((n + 1) / 10)

/-- Python `str(n)` for a natural number, as a character list. -/
def pyStrNat (n : Nat) : List Char :=
  if n = 0 then ['0'] else ((decDigitsAux n n).map digitChar).reverse

/-- Python format spec `{n:02d}`: zero-pad to width two. -/
def pad2 (n : Nat) : List Char :=
  if n < 10 then '0' :: [digitChar n] else pyStrNat n

/-- Python `str(i)` for an integer. -/
def pyIntStr (i : Int) : String :=
  if i < 0 then String.mk ('-' :: pyStrNat i.natAbs) else String.mk (pyStrNat i.toNat)

/-- Python whitespace test used by `str.strip()`. -/
def pyIsSpace (c : Char) : Bool :=
  c = ' ' || c = '\t' || c = '\n' || c = '\r' || c = Char.ofNat 11 || c = Char.ofNat 12

/-- Python `str.strip()`: drop whitespace from both ends. -/
def pyStrip (s : String) : String :=
  String.mk (((s.data.dropWhile pyIsSpace).reverse.dropWhile pyIsSpace).reverse)

/-- Python `str.lower()` on a single ASCII character. -/
def charLower (c : Char) : Char :=
  if 'A' ≤ c ∧ c ≤ 'Z' then Char.ofNat (c.toNat + 32) else c

/-- Python `str.lower()`. -/
def pyLower (s : String) : String := String.mk (s.data.map charLower)

/-- `url[:-1]` applied when the URL ends with a slash: the normalization the
fetcher performs before issuing the HTTP GET (`scraper.py` line 121). -/
def stripSlashChars (l : List Char) : List Char :=
  if l.getLast? = some '/' then l.dropLast else l

/-- String-level wrapper for the fetcher's trailing-slash normalization. -/
def stripSlashUrl (url : String) : String := String.mk (stripSlashChars url.data)

/-! ### Content Fetcher (`scraper.py`, `scrape_current_affairs_content`) -/

/-- One `.bix-div-container` question block as the parser sees it:
the question element's text (`none` when `.bix-td-qtxt` is absent), the
ordered option texts, the `value` attribute of the `.jq-hdnakqb` element
(`none` when the element is absent; absent attributes default to `""`),
and the explanation text. -/
structure QuestionBlock where
  qtext : Option String
  options : List String
  answerValue : Option String
  explanationText : Option String
deriving Repr, DecidableEq

/-- One raw question record as built by the fetcher
(`scraper.py` lines 188-194).  `correct_option_index` is the 0-based
index from the letter map, `-1` meaning "unrecognized". -/
structure RawQuestion where
  question : String
  options : List String
  correct_option_index : Int
  explanation : String
  source_url : String
deriving Repr, DecidableEq

/-- The letter-to-index map `{'a': 0, 'b': 1, 'c': 2, 'd': 3, 'e': 4}` with
default `-1` (`scraper.py` line 175). -/
def answer_map (s : String) : Int :=
  if s = "a" then 0 else if s = "b" then 1 else if s = "c" then 2
  else if s = "d" then 3 else if s = "e" then 4 else -1

/-- The correct-option index computed for a block: `-1` when the answer
element is absent, otherwise the letter map applied to the lowercased
`value` attribute (`scraper.py` lines 170-176). -/
def blockIndex (b : QuestionBlock) : Int :=
  match b.answerValue with
  | none => -1
  | some v => answer_map (pyLower v)

/-- Per-block extraction (`scraper.py` lines 149-196): skip when the
question element is absent, the text is empty, the option list is empty,
or the correct-option index is `-1`. -/
def scrapeBlock (url : String) (b : QuestionBlock) : Option RawQuestion :=
  match b.qtext with
  | none => none
  | some qt =>
    let idx := blockIndex b
    if qt = "" ∨ b.options = [] ∨ idx = -1 then none
    else some { question := qt, options := b.options, correct_option_index := idx,
                explanation := b.explanationText.getD "", source_url := url }

/-- Outcome of the HTTP GET: a response with a status code and parsed
question blocks, or a network-level failure (`requests.exceptions.RequestException`). -/
inductive HttpResult where
  | response (status : Nat) (blocks : List QuestionBlock)
  | netError
deriving Repr, DecidableEq

/-- The body of the `try` block in `scrape_current_affairs_content`
(`scraper.py` lines 119-201): a network failure raises, a non-200 status
returns the empty list, an empty block list returns the empty list, and
otherwise each block is extracted. -/
def fetchBody (url : String) (r : HttpResult) : Except String (List RawQuestion) :=
  match r with
  | .netError => .error "RequestException"
  | .response status blocks =>
    if status ≠ 200 then .ok []
    else if blocks = [] then .ok []
    else .ok (blocks.filterMap (scrapeBlock (stripSlashUrl url)))

/-- `scrape_current_affairs_content`: the surrounding `except` clauses
catch every exception and fall through to `return questions_data`, which
still holds `[]` (`scraper.py` lines 203-227). -/
def scrape_current_affairs_content (url : String) (r : HttpResult) : List RawQuestion :=
  match fetchBody url r with
  | .ok l => l
  | .error _ => []

/-! ### Translator (`scraper.py`, `translate_to_gujarati`) -/

/-- Outcome of one call to `GoogleTranslator(...).translate`:
a returned value (possibly `None` or empty) or a raised exception. -/
inductive TransResult where
  | ok (result : Option String)
  | raised
deriving Repr, DecidableEq

/-- Python truthiness of `translated and translated.strip()`. -/
def translationUsable : Option String → Bool
  | none => false
  | some t => decide (t ≠ "") && decide (pyStrip t ≠ "")

/-- The `while attempt < retries` loop of `translate_to_gujarati`
(`scraper.py` lines 241-268), fuelled.  `svc k` is the outcome of the
`k`-th service call; note the source increments `attempt` only in the
`except` branch, not on an empty result. -/
def translateLoop (svc : Nat → TransResult) (text : String) (retries : Nat) :
    Nat → Nat → Nat → Option String
  | 0, _, _ => none
  | fuel + 1, attempt, k =>
    if attempt < retries then
      match svc k with
      | .ok t =>
        if translationUsable t then some (t.getD "")
        else translateLoop svc text retries fuel attempt (k + 1)
      | .raised => translateLoop svc text retries fuel (attempt + 1) (k + 1)
    else some text

/-- `translate_to_gujarati(text, retries=3, delay=5)`, fuelled.  `none`
means the loop has not returned within `fuel` iterations. -/
def translate_to_gujarati (svc : Nat → TransResult) (text : String) (retries fuel : Nat) :
    Option String :=
  translateLoop svc text retries fuel 0 0

/-- A translation service whose every call returns an empty string. -/
def svcAlwaysEmpty : Nat → TransResult := fun _ => .ok (some "")

/-- A translation service whose every call raises. -/
def svcAlwaysRaises : Nat → TransResult := fun _ => .raised

/-! ### URL Deriver (`custom_scraper.py`, `generate_url`) -/

/-- The characters of `"https://www.indiabix.com/"`. -/
def urlBase : List Char :=
  ['h','t','t','p','s',':','/','/','w','w','w','.','i','n','d','i','a','b','i','x','.','c','o','m','/']

/-- The characters of `"current-affairs/"` (also the literal part of the
date-extraction pattern in `scraper.py` line 69). -/
def caPat : List Char :=
  ['c','u','r','r','e','n','t','-','a','f','f','a','i','r','s','/']

/-- The characters of `"https://www.indiabix.com/current-affairs/"`. -/
def urlPrefixChars : List Char := urlBase ++ caPat

/-- Python `f"{year}-{month:02d}-{day:02d}"`. -/
def formatDateChars (y m d : Nat) : List Char :=
  pyStrNat y ++ '-' :: (pad2 m ++ '-' :: pad2 d)

/-- The characters of the URL built for one day
(`custom_scraper.py` lines 50-51 and 69-70): note the trailing slash. -/
def dayUrlChars (y m d : Nat) : List Char :=
  urlPrefixChars ++ (formatDateChars y m d ++ ['/'])

/-- The URL string for one day. -/
def dayUrl (y m d : Nat) : String := String.mk (dayUrlChars y m d)

/-- The month-length computation of `generate_url`
(`custom_scraper.py` lines 56-65), including its leap-year rule. -/
def days_in_month (y m : Nat) : Nat :=
  if m = 2 then (if (y % 4 = 0 ∧ y % 100 ≠ 0) ∨ y % 400 = 0 then 29 else 28)
  else if m = 4 ∨ m = 6 ∨ m = 9 ∨ m = 11 then 30 else 31

/-- The URLs generated for a whole month, day 1 up to the last day. -/
def monthUrls (y m : Nat) : List String :=
  (List.range (days_in_month y m)).map (fun i => dayUrl y m (i + 1))

/-- `generate_url(year, month, day=None)`: a single URL when a (truthy)
day is given, else one URL per day of the month.  Python's `if day:` is
false both for `None` and for `0`. -/
def generate_url (y m : Nat) (day : Option Nat) : List String :=
  match day with
  | some d => if d ≠ 0 then [dayUrl y m d] else monthUrls y m
  | none => monthUrls y m

/-- Modelled from the spec: the month length the claim enumerates
(31 for months 1,3,5,7,8,10,12; 30 for 4,6,9,11; 29 for February in leap
years, 28 otherwise), stated independently of the source for comparison. -/
def specMonthLength (y m : Nat) : Nat :=
  if m = 1 ∨ m = 3 ∨ m = 5 ∨ m = 7 ∨ m = 8 ∨ m = 10 ∨ m = 12 then 31
  else if m = 4 ∨ m = 6 ∨ m = 9 ∨ m = 11 then 30
  else if (y % 4 = 0 ∧ y % 100 ≠ 0) ∨ y % 400 = 0 then 29 else 28

/-! ### Date extraction (`scraper.py`, `extract_date_from_url`) -/

/-- Parse exactly `k` decimal digits into an accumulator. -/
def parseFixedNat : Nat → Nat → List Char → Option (Nat × List Char)
  | 0, acc, l => some (acc, l)
  | _ + 1, _, [] => none
  | k + 1, acc, c :: cs =>
    match digitVal? c with
    | some d => parseFixedNat k (acc * 10 + d) cs
    | none => none

/-- Consume an exact literal character sequence. -/
def stripLit : List Char → List Char → Option (List Char)
  | [], l => some l
  | _ :: _, [] => none
  | p :: ps, c :: cs => if c = p then stripLit ps cs else none

/-- Try the regex `current-affairs/(\d{4})-(\d{2})-(\d{2})` at the head of
the character list, returning the three captured numbers. -/
def matchDateAt (l : List Char) : Option (Nat × Nat × Nat) :=
  match stripLit caPat l with
  | none => none
  | some r0 =>
    match parseFixedNat 4 0 r0 with
    | none => none
    | some (y, r1) =>
      match r1 with
      | '-' :: r2 =>
        match parseFixedNat 2 0 r2 with
        | none => none
        | some (m, r3) =>
          match r3 with
          | '-' :: r4 =>
            match parseFixedNat 2 0 r4 with
            | none => none
            | some (d, _) => some (y, m, d)
          | _ => none
      | _ => none

/-- `re.search`: try the pattern at every position, leftmost match wins. -/
def findDateMatch : List Char → Option (Nat × Nat × Nat)
  | [] => none
  | c :: rest =>
    match matchDateAt (c :: rest) with
    | some r => some r
    | none => findDateMatch rest

/-- The validity check `datetime.strptime` performs on the captured date
(year at least 1, month 1..12, day within the month). -/
def validYMD (y m d : Nat) : Bool :=
  decide (1 ≤ y) && decide (1 ≤ m) && decide (m ≤ 12) &&
  decide (1 ≤ d) && decide (d ≤ days_in_month y m)

/-- `extract_date_from_url` (`scraper.py` lines 58-82), reduced to the
calendar triple it recovers: the regex search followed by the `strptime`
validity check; any failure yields `none` (the source's `(None, None)`). -/
def extract_date_from_url (url : String) : Option (Nat × Nat × Nat) :=
  match findDateMatch url.data with
  | some (y, m, d) => if validYMD y m d then some (y, m, d) else none
  | none => none

/-! ### Dedup Ledger (`db_utils.py`, MongoDB `ScrapedURLs` collection) -/

/-- Number of ledger documents whose `url` field equals `url`
(`count_documents({"url": url})`). -/
def countEntries (ledger : List String) (url : String) : Nat :=
  ledger.countP (fun u => decide (u = url))

/-- `mark_url_as_processed` (`db_utils.py` lines 349-360): insert a new
document only when no document with this URL exists. -/
def mark_url_as_processed (ledger : List String) (url : String) : List String :=
  if countEntries ledger url = 0 then ledger ++ [url] else ledger

/-- `is_url_already_scraped` (`db_utils.py` lines 367-377). -/
def is_url_already_scraped (ledger : List String) (url : String) : Bool :=
  decide (0 < countEntries ledger url)

/-! ### Question insertion (`db_utils.py`, `insert_question`) -/

/-- The values a scraped-question dict holds. -/
inductive PyVal where
  | str (s : String)
  | int (i : Int)
  | strList (l : List String)
deriving Repr, DecidableEq

/-- Python `f"...{v}..."` interpolation of a dict value. -/
def pyFormat : PyVal → String
  | .str s => s
  | .int i => pyIntStr i
  | .strList l =>
    "[" ++ String.intercalate ", " (l.map (fun s => "\x27" ++ s ++ "\x27")) ++ "]"

/-- The dict literal the fetcher builds for each question
(`scraper.py` lines 188-194); note the index is stored under the key
`correct_option_index`. -/
def mkQuestionData (q : RawQuestion) : List (String × PyVal) :=
  [("question", .str q.question),
   ("options", .strList q.options),
   ("correct_option_index", .int q.correct_option_index),
   ("explanation", .str q.explanation),
   ("source_url", .str q.source_url)]

/-- Python dict subscription: `KeyError` (as `Except.error key`) when the
key is absent. -/
def dictLookup : List (String × PyVal) → String → Except String PyVal
  | [], k => .error k
  | (k1, v) :: rest, k => if k = k1 then .ok v else dictLookup rest k

/-- The correct-answer marker computation of `insert_question`
(`db_utils.py` line 286): `f"i:{question_data['correct_answer_index']};"`.
The dict subscription can raise `KeyError`. -/
def insert_question_correct_answer (qd : List (String × PyVal)) : Except String String :=
  match dictLookup qd "correct_answer_index" with
  | .error k => .error k
  | .ok v => .ok ("i:" ++ pyFormat v ++ ";")

/-! ### Per-URL pipelines (`main.py` lines 72-170, `custom_scraper.py` `process_url`) -/

/-- Outcome of one URL in the `main.py` loop. -/
inductive MainOutcome where
  | skipped
  | noSkill
  | noTopic
  | emptyMarked
  | processed (succ fail : Nat)
deriving Repr, DecidableEq

/-- The per-URL body of `main.main` (`main.py` lines 72-170), with the
fetch outcome and per-question translation/insert outcomes as inputs and
database connectivity abstracted as available.  An empty fetch marks the
URL processed anyway (line 111). -/
def mainProcessUrl (ledger : List String) (url : String)
    (skillId topicId : Option Nat) (fetched : List RawQuestion)
    (translateOk insertOk : RawQuestion → Bool) : MainOutcome × List String :=
  if is_url_already_scraped ledger url then (.skipped, ledger)
  else
    match skillId with
    | none => (.noSkill, ledger)
    | some _ =>
      match topicId with
      | none => (.noTopic, ledger)
      | some _ =>
        if fetched = [] then (.emptyMarked, mark_url_as_processed ledger url)
        else
          let succ := (fetched.filter (fun q => translateOk q && insertOk q)).length
          (.processed succ (fetched.length - succ), mark_url_as_processed ledger url)

/-- `process_url` of `custom_scraper.py` (lines 156-254, identical in
`date_range_scraper.py`): an empty fetch returns `False` *without*
marking the URL (lines 220-222); a non-empty fetch processes every
question, marks the URL, and returns whether at least one succeeded. -/
def customProcessUrl (ledger : List String) (url : String) (dateOk : Bool)
    (skillId topicId : Option Nat) (fetched : List RawQuestion)
    (questionOk : RawQuestion → Bool) : Bool × List String :=
  if !dateOk then (false, ledger)
  else
    match skillId with
    | none => (false, ledger)
    | some _ =>
      match topicId with
      | none => (false, ledger)
      | some _ =>
        if fetched = [] then (false, ledger)
        else
          let succ := (fetched.filter questionOk).length
          (decide (0 < succ), mark_url_as_processed ledger url)

/-! ### Practice Set Assembler (`practice_sets.py`) -/

/-- One row of the `practice_sets` table, reduced to the columns the
claims mention (random code/slug, description and timestamps abstracted). -/
structure PracticeSetRow where
  psid : Nat
  title : String
  skill_id : Nat
  total_questions : Nat
deriving Repr, DecidableEq

/-- The relational store: an id counter (`lastrowid` source) and the two
tables the assembler writes. -/
structure RelState where
  nextPracticeSetId : Nat
  practice_sets : List PracticeSetRow
  practice_set_questions : List (Nat × Nat)
deriving Repr, DecidableEq

/-- `create_practice_set` (`practice_sets.py` lines 133-200): insert one
row with `total_questions` fixed now, return its id. -/
def create_practice_set (s : RelState) (title : String) (skill_id total_questions : Nat) :
    Nat × RelState :=
  let psid := s.nextPracticeSetId
  (psid, { s with
            nextPracticeSetId := psid + 1,
            practice_sets := s.practice_sets ++ [⟨psid, title, skill_id, total_questions⟩] })

/-- `add_questions_to_practice_set` (`practice_sets.py` lines 202-241):
insert one link row per question id, skipping ids whose insert raises
(`linkOk` is the per-row oracle); return whether every insert succeeded. -/
def add_questions_to_practice_set (s : RelState) (psid : Nat) (question_ids : List Nat)
    (linkOk : Nat → Bool) : Bool × RelState :=
  let inserted := question_ids.filter linkOk
  (decide (inserted.length = question_ids.length),
   { s with practice_set_questions :=
              s.practice_set_questions ++ inserted.map (fun q => (psid, q)) })

/-- `create_daily_practice_set` (`practice_sets.py` lines 243-300), with
the skill/topic lookups and the document-store question query supplied
as inputs.  A zero-question scope fails before any insert. -/
def create_daily_practice_set (s : RelState) (date_text : String)
    (skillId topicId : Option Nat) (question_ids : List Nat) (linkOk : Nat → Bool) :
    Bool × RelState :=
  match skillId with
  | none => (false, s)
  | some sk =>
    match topicId with
    | none => (false, s)
    | some _ =>
      if question_ids.length = 0 then (false, s)
      else
        let (psid, s1) := create_practice_set s (date_text ++ " Current Affairs") sk
          question_ids.length
        add_questions_to_practice_set s1 psid question_ids linkOk

/-- `create_monthly_practice_set` (`practice_sets.py` lines 302-351). -/
def create_monthly_practice_set (s : RelState) (month_year : String)
    (skillId : Option Nat) (question_ids : List Nat) (linkOk : Nat → Bool) :
    Bool × RelState :=
  match skillId with
  | none => (false, s)
  | some sk =>
    if question_ids.length = 0 then (false, s)
    else
      let (psid, s1) := create_practice_set s (month_year ++ " Monthly Current Affairs") sk
        question_ids.length
      add_questions_to_practice_set s1 psid question_ids linkOk

/-- `create_weekly_practice_set` (`practice_sets.py` lines 353-416): the
date-range question query runs first, then the most-recent-skill lookup. -/
def create_weekly_practice_set (s : RelState) (title : String)
    (recentSkill : Option Nat) (question_ids : List Nat) (linkOk : Nat → Bool) :
    Bool × RelState :=
  if question_ids.length = 0 then (false, s)
  else
    match recentSkill with
    | none => (false, s)
    | some sk =>
      let (psid, s1) := create_practice_set s title sk question_ids.length
      add_questions_to_practice_set s1 psid question_ids linkOk

/-- `create_date_range_practice_set` (`practice_sets.py` lines 418-484):
question query first, then the by-name skill lookup with fallback to the
most recent skill. -/
def create_date_range_practice_set (s : RelState) (title : String)
    (skillByName recentSkill : Option Nat) (question_ids : List Nat) (linkOk : Nat → Bool) :
    Bool × RelState :=
  if question_ids.length = 0 then (false, s)
  else
    match skillByName with
    | some sk =>
      let (psid, s1) := create_practice_set s title sk question_ids.length
      add_questions_to_practice_set s1 psid question_ids linkOk
    | none =>
      match recentSkill with
      | none => (false, s)
      | some sk =>
        let (psid, s1) := create_practice_set s title sk question_ids.length
        add_questions_to_practice_set s1 psid question_ids linkOk

/-- Well-formedness of the relational store: every existing link row
refers to an already-allocated practice-set id. -/
def RelWF (s : RelState) : Prop :=
  ∀ l ∈ s.practice_set_questions, l.1 < s.nextPracticeSetId

/-- Number of link rows attached to a given practice set. -/
def countLinks (s : RelState) (psid : Nat) : Nat :=
  (s.practice_set_questions.filter (fun l => decide (l.1 = psid))).length

/-! ### Ledger lemmas -/

theorem countEntries_append (l1 l2 : List String) (u : String) :
    countEntries (l1 ++ l2) u = countEntries l1 u + countEntries l2 u := by
  simp [countEntries, List.countP_append]

theorem countEntries_self_singleton (u : String) : countEntries [u] u = 1 := by
  simp [countEntries]

theorem countEntries_other_singleton (u v : String) (h : v ≠ u) :
    countEntries [u] v = 0 := by
  simp [countEntries, h, Ne.symm]

theorem is_scraped_mark_self (ledger : List String) (u : String) :
    is_url_already_scraped (mark_url_as_processed ledger u) u = true := by
  unfold is_url_already_scraped mark_url_as_processed
  by_cases h : countEntries ledger u = 0
  · rw [if_pos h]
    simp [countEntries_append, countEntries_self_singleton]
  · rw [if_neg h]
    simp
    omega

theorem mark_fresh (ledger : List String) (u : String)
    (h : is_url_already_scraped ledger u = false) :
    mark_url_as_processed ledger u = ledger ++ [u] := by
  unfold is_url_already_scraped at h
  unfold mark_url_as_processed
  rw [if_pos (by simp at h; omega)]

/-! ### Claim C1 -/

/-- C1: the claim states that the correct-answer marker stored for every
ingested question is `i:` followed by the 1-based correct-option index and
`;`.  In the code this fails: the fetcher stores the (0-based) index under
the dict key `correct_option_index`, while `insert_question` interpolates
`question_data['correct_answer_index']` — a key no fetcher record carries —
so the marker computation raises `KeyError` for every record the fetcher
produces. -/
theorem c1_marker_key_missing (q : RawQuestion) :
    insert_question_correct_answer (mkQuestionData q) =
      Except.error "correct_answer_index" := rfl

/-! ### Claim C5 -/

/-- C5: marking an identifier processed makes `is_processed` true for it,
leaves every other identifier's status unchanged, is idempotent (a second
`mark_processed` call is a no-op on the ledger state), and never creates a
second ledger entry for the same identifier. -/
theorem c5_mark_processed_algebra (ledger : List String) (x y : String) (h : y ≠ x) :
    is_url_already_scraped (mark_url_as_processed ledger x) x = true ∧
    is_url_already_scraped (mark_url_as_processed ledger x) y =
      is_url_already_scraped ledger y ∧
    mark_url_as_processed (mark_url_as_processed ledger x) x =
      mark_url_as_processed ledger x ∧
    countEntries (mark_url_as_processed ledger x) x = max 1 (countEntries ledger x) := by
  refine ⟨is_scraped_mark_self ledger x, ?_, ?_, ?_⟩
  · unfold is_url_already_scraped mark_url_as_processed
    by_cases h0 : countEntries ledger x = 0
    · rw [if_pos h0, countEntries_append, countEntries_other_singleton x y h]
      simp
    · rw [if_neg h0]
  · unfold mark_url_as_processed
    by_cases h0 : countEntries ledger x = 0
    · have hne : countEntries (ledger ++ [x]) x ≠ 0 := by
        rw [countEntries_append, countEntries_self_singleton]; omega
      rw [if_pos h0, if_neg hne]
    · rw [if_neg h0, if_neg h0]
  · unfold mark_url_as_processed
    by_cases h0 : countEntries ledger x = 0
    · rw [if_pos h0, countEntries_append, countEntries_self_singleton, h0]
      decide
    · rw [if_neg h0, Nat.max_eq_right (by omega : 1 ≤ countEntries ledger x)]

/-- Witness for C5 at a concrete ledger and identifiers. -/
theorem c5_witness :
    ("b" : String) ≠ "a" ∧
    (is_url_already_scraped (mark_url_as_processed [] "a") "a" = true ∧
     is_url_already_scraped (mark_url_as_processed [] "a") "b" =
       is_url_already_scraped [] "b" ∧
     mark_url_as_processed (mark_url_as_processed [] "a") "a" =
       mark_url_as_processed [] "a" ∧
     countEntries (mark_url_as_processed [] "a") "a" = max 1 (countEntries [] "a")) :=
  ⟨by decide, c5_mark_processed_algebra [] "a" "b" (by decide)⟩

/-! ### Claim C7 -/

/-- C7: any non-200 HTTP status makes the fetcher return the empty
sequence without raising (the `try` body yields `.ok []`, no exception),
and the only fetch outcome the `try` body treats as an error (the
exception the `except` clauses catch) is the network-level failure. -/
theorem c7_non200_empty_no_error :
    (∀ (url : String) (status : Nat) (blocks : List QuestionBlock), status ≠ 200 →
        scrape_current_affairs_content url (.response status blocks) = [] ∧
        fetchBody url (.response status blocks) = .ok []) ∧
    (∀ (url : String) (r : HttpResult) (e : String),
        fetchBody url r = .error e → r = .netError) := by
  constructor
  · intro url status blocks h
    refine ⟨?_, ?_⟩ <;> simp [scrape_current_affairs_content, fetchBody, h]
  · intro url r e h
    cases r with
    | netError => rfl
    | response status blocks =>
      simp only [fetchBody] at h
      split_ifs at h

/-- Witness for C7 at a concrete 404 response and a network failure. -/
theorem c7_witness :
    (scrape_current_affairs_content "u" (.response 404 []) = [] ∧
     fetchBody "u" (.response 404 []) = .ok []) ∧
    HttpResult.netError = HttpResult.netError :=
  ⟨c7_non200_empty_no_error.1 "u" 404 [] (by decide),
   c7_non200_empty_no_error.2 "u" .netError "RequestException" rfl⟩

/-! ### Claim C8 -/

/-- C8: for every assembly scope (single date, single month, past week,
explicit date range) whose resolved question-id set is empty, the
assembler returns a failure outcome and leaves the relational store
completely unchanged — no PracticeSet row is ever created. -/
theorem c8_empty_scope_creates_nothing (s : RelState)
    (date_text month_year weekly_title range_title : String)
    (skillId topicId recentSkill skillByName : Option Nat) (linkOk : Nat → Bool) :
    create_daily_practice_set s date_text skillId topicId [] linkOk = (false, s) ∧
    create_monthly_practice_set s month_year skillId [] linkOk = (false, s) ∧
    create_weekly_practice_set s weekly_title recentSkill [] linkOk = (false, s) ∧
    create_date_range_practice_set s range_title skillByName recentSkill [] linkOk =
      (false, s) := by
  refine ⟨?_, ?_, ?_, ?_⟩
  · cases skillId with
    | none => rfl
    | some sk => cases topicId with
      | none => rfl
      | some tp => rfl
  · cases skillId with
    | none => rfl
    | some sk => rfl
  · rfl
  · rfl

/-! ### Claim C10 -/

/-- With a translation service that always returns an empty string, the
retry loop never increments `attempt` and therefore never returns,
whatever the fuel. -/
theorem translateLoop_empty_diverges (text : String) :
    ∀ fuel k, translateLoop svcAlwaysEmpty text 3 fuel 0 k = none := by
  intro fuel
  induction fuel with
  | zero => intro k; rfl
  | succ f ih =>
    intro k
    unfold translateLoop svcAlwaysEmpty
    rw [if_pos (by omega)]
    exact ih (k + 1)

/-- C10: the claim states `translate_to_gujarati` is total and falls back
to the original text when every attempt fails or is empty.  The code only
honours this for raising attempts: on an empty translation result the
loop forgets to increment `attempt` (contradicting its own
`attempt + 1/retries` log line), so a service that keeps returning empty
strings makes the function loop forever, while a service that keeps
raising does return the original text after the bounded retries. -/
theorem c10_empty_result_loops_forever :
    (∀ fuel, translate_to_gujarati svcAlwaysEmpty "hello" 3 fuel = none) ∧
    translate_to_gujarati svcAlwaysRaises "hello" 3 4 = some "hello" :=
  ⟨fun fuel => translateLoop_empty_diverges "hello" fuel 0, rfl⟩

/-! ### Claim C2 -/

/-- The index a block yields is either `-1` or one of the mapped letter
indices `0..4`. -/
theorem answer_map_cases (s : String) :
    answer_map s = -1 ∨ (0 ≤ answer_map s ∧ answer_map s ≤ 4) := by
  unfold answer_map
  split_ifs <;> simp

theorem blockIndex_cases (b : QuestionBlock) :
    blockIndex b = -1 ∨ (0 ≤ blockIndex b ∧ blockIndex b ≤ 4) := by
  cases hb : b.answerValue with
  | none => left; simp [blockIndex, hb]
  | some v => simpa [blockIndex, hb] using answer_map_cases (pyLower v)

/-- C2 counterexample: the claim states every RawQuestion the fetcher
returns has a correct-option index that references an existing option.
A block with one option and answer letter `c` is kept with index 2,
which is not a valid position in its one-element option list. -/
theorem c2_counterexample :
    scrapeBlock "u" ⟨some "Q", ["only"], some "C", none⟩ =
      some ⟨"Q", ["only"], 2, "", "u"⟩ ∧
    ¬((2 : Int) < (([("only" : String)] : List String).length : Int)) := by
  refine ⟨by decide, by decide⟩

/-- C2 amended: the fetcher discards a block exactly when the question
text is missing or empty, the option list is empty, or the answer marker
does not map to a letter index; every kept record therefore has nonempty
question text, a nonempty option list and an index in `0..4` — but the
index is never compared against the option-list length, so it may point
past the end of the options. -/
theorem c2_fetcher_discard_rule :
    (∀ (url : String) (b : QuestionBlock) (r : RawQuestion),
        scrapeBlock url b = some r →
        r.question ≠ "" ∧ r.options ≠ [] ∧
        0 ≤ r.correct_option_index ∧ r.correct_option_index ≤ 4) ∧
    (∀ (url : String) (b : QuestionBlock),
        blockIndex b = -1 → scrapeBlock url b = none) := by
  constructor
  · intro url b r h
    unfold scrapeBlock at h
    cases hq : b.qtext with
    | none => rw [hq] at h; cases h
    | some qt =>
      rw [hq] at h
      by_cases hcond : qt = "" ∨ b.options = [] ∨ blockIndex b = -1
      · simp only [hcond, if_true] at h
        cases h
      · simp only [hcond, if_false] at h
        obtain rfl := (Option.some.injEq _ _).mp h
        push_neg at hcond
        obtain ⟨h1, h2, h3⟩ := hcond
        rcases blockIndex_cases b with hc | hc
        · exact absurd hc h3
        · exact ⟨h1, h2, hc.1, hc.2⟩
  · intro url b hidx
    unfold scrapeBlock
    cases hq : b.qtext with
    | none => rfl
    | some qt => simp [hidx]

/-- Witness for C2 at a concrete kept block and a concrete dropped block. -/
theorem c2_witness :
    ((⟨"Q2", ["A", "B"], 0, "", "u2"⟩ : RawQuestion).question ≠ "" ∧
     (⟨"Q2", ["A", "B"], 0, "", "u2"⟩ : RawQuestion).options ≠ [] ∧
     0 ≤ (⟨"Q2", ["A", "B"], 0, "", "u2"⟩ : RawQuestion).correct_option_index ∧
     (⟨"Q2", ["A", "B"], 0, "", "u2"⟩ : RawQuestion).correct_option_index ≤ 4) ∧
    scrapeBlock "u3" ⟨some "x", ["y"], some "z", none⟩ = none :=
  ⟨c2_fetcher_discard_rule.1 "u2" ⟨some "Q2", ["A", "B"], some "a", none⟩
      ⟨"Q2", ["A", "B"], 0, "", "u2"⟩ (by decide),
   c2_fetcher_discard_rule.2 "u3" ⟨some "x", ["y"], some "z", none⟩ (by decide)⟩

/-! ### Claim C3 -/

/-- C3 counterexample: the claim states an identifier whose fetch returns
zero blocks still gets a ledger entry.  In the custom pipeline
(`custom_scraper.process_url`), an empty fetch returns failure without
touching the ledger, so the identifier stays unprocessed and will be
fetched again on the next run. -/
theorem c3_counterexample :
    customProcessUrl [] "https://www.indiabix.com/current-affairs/2024-03-02/" true
      (some 1) (some 1) [] (fun _ => true) = (false, []) ∧
    is_url_already_scraped [] "https://www.indiabix.com/current-affairs/2024-03-02/"
      = false := ⟨rfl, by decide⟩

/-- C3 amended: in the `main.py` pipeline an identifier whose fetch
returns zero question blocks is still marked processed (and recorded as a
non-success outcome), so it is skipped on later runs; the custom
pipeline's `process_url`, by contrast, returns failure on an empty fetch
without creating a ledger entry. -/
theorem c3_empty_fetch_ledger (ledger : List String) (url : String) (sk tp : Nat)
    (tOk iOk qOk : RawQuestion → Bool)
    (h : is_url_already_scraped ledger url = false) :
    mainProcessUrl ledger url (some sk) (some tp) [] tOk iOk =
      (.emptyMarked, mark_url_as_processed ledger url) ∧
    is_url_already_scraped (mark_url_as_processed ledger url) url = true ∧
    customProcessUrl ledger url true (some sk) (some tp) [] qOk = (false, ledger) := by
  refine ⟨?_, is_scraped_mark_self ledger url, rfl⟩
  unfold mainProcessUrl
  rw [h]
  rfl

/-- Witness for C3 at a fresh ledger and concrete URL. -/
theorem c3_witness :
    is_url_already_scraped [] "https://www.indiabix.com/current-affairs/2024-03-03/"
      = false ∧
    (mainProcessUrl [] "https://www.indiabix.com/current-affairs/2024-03-03/"
        (some 1) (some 2) [] (fun _ => true) (fun _ => true) =
      (.emptyMarked,
        mark_url_as_processed [] "https://www.indiabix.com/current-affairs/2024-03-03/") ∧
     is_url_already_scraped
        (mark_url_as_processed [] "https://www.indiabix.com/current-affairs/2024-03-03/")
        "https://www.indiabix.com/current-affairs/2024-03-03/" = true ∧
     customProcessUrl [] "https://www.indiabix.com/current-affairs/2024-03-03/" true
        (some 1) (some 2) [] (fun _ => true) = (false, [])) :=
  ⟨by decide,
   c3_empty_fetch_ledger [] "https://www.indiabix.com/current-affairs/2024-03-03/" 1 2
     (fun _ => true) (fun _ => true) (fun _ => true) (by decide)⟩

/-! ### Claim C6 -/

/-- C6 counterexample: the claim states the canonical URL has no trailing
slash and any slash is normalized before ledger comparison/storage.  The
deriver emits `.../<YYYY-MM-DD>/` with a trailing slash, and the ledger
stores that slashed string verbatim. -/
theorem c6_counterexample :
    generate_url 2024 3 (some 15) = [dayUrl 2024 3 15] ∧
    (dayUrl 2024 3 15).data.getLast? = some '/' ∧
    dayUrl 2024 3 15 ≠ String.mk (urlPrefixChars ++ formatDateChars 2024 3 15) ∧
    mark_url_as_processed [] (dayUrl 2024 3 15) = [dayUrl 2024 3 15] :=
  ⟨rfl, by decide, by decide, rfl⟩

/-- C6 amended: each derived URL ends with a trailing slash; the slash is
normalized away only by the fetcher before the HTTP GET
(`stripSlashChars` yields the `<base>/<YYYY-MM-DD>` form), while the
ledger check and mark operate on the derived slashed string verbatim, so
deriver, `is_processed` and `mark_processed` all use one identical
(slashed) string for the same calendar day. -/
theorem c6_trailing_slash_behaviour (y m d : Nat) (ledger : List String)
    (h : is_url_already_scraped ledger (dayUrl y m d) = false) :
    (dayUrlChars y m d).getLast? = some '/' ∧
    stripSlashChars (dayUrlChars y m d) = urlPrefixChars ++ formatDateChars y m d ∧
    mark_url_as_processed ledger (dayUrl y m d) = ledger ++ [dayUrl y m d] := by
  have hshape : dayUrlChars y m d =
      (urlPrefixChars ++ formatDateChars y m d) ++ ['/'] := by
    unfold dayUrlChars
    rw [List.append_assoc]
  have hlast : (dayUrlChars y m d).getLast? = some '/' := by
    rw [hshape, List.getLast?_concat]
  refine ⟨hlast, ?_, mark_fresh ledger (dayUrl y m d) h⟩
  unfold stripSlashChars
  rw [if_pos hlast, hshape, List.dropLast_concat]

/-- Witness for C6 at a concrete date and fresh ledger. -/
theorem c6_witness :
    is_url_already_scraped [] (dayUrl 2024 3 16) = false ∧
    ((dayUrlChars 2024 3 16).getLast? = some '/' ∧
     stripSlashChars (dayUrlChars 2024 3 16) =
       urlPrefixChars ++ formatDateChars 2024 3 16 ∧
     mark_url_as_processed [] (dayUrl 2024 3 16) = [] ++ [dayUrl 2024 3 16]) :=
  ⟨by decide, c6_trailing_slash_behaviour 2024 3 16 [] (by decide)⟩

/-! ### Claim C4: decimal round-trip lemmas -/

theorem decAux_zero (f : Nat) : decDigitsAux f 0 = [] := by
  cases f <;> rfl

theorem decAux_step (f n : Nat) (hn : 0 < n) :
    decDigitsAux (f + 1) n = n % 10 :: decDigitsAux f (n / 10) := by
  cases n with
  | zero => omega
  | succ n => rfl

theorem decAux_digits1 (f n : Nat) (h1 : 1 ≤ n) (h9 : n ≤ 9) :
    decDigitsAux (f + 1) n = [n] := by
  rw [decAux_step f n (by omega)]
  have h10 : n / 10 = 0 := by omega
  have hmod : n % 10 = n := by omega
  rw [h10, decAux_zero, hmod]

theorem decAux_digits2 (f n : Nat) (h1 : 10 ≤ n) (h2 : n ≤ 99) :
    decDigitsAux (f + 2) n = [n % 10, n / 10] := by
  rw [decAux_step (f + 1) n (by omega)]
  rw [decAux_digits1 f (n / 10) (by omega) (by omega)]

theorem decAux_digits4 (f y : Nat) (h1 : 1000 ≤ y) (h2 : y ≤ 9999) :
    decDigitsAux (f + 4) y = [y % 10, y / 10 % 10, y / 100 % 10, y / 1000] := by
  have e1 : y / 10 / 10 = y / 100 := by omega
  have e2 : y / 100 / 10 = y / 1000 := by omega
  rw [decAux_step (f + 3) y (by omega)]
  rw [decAux_step (f + 2) (y / 10) (by omega)]
  rw [e1]
  rw [decAux_step (f + 1) (y / 100) (by omega)]
  rw [e2]
  rw [decAux_digits1 f (y / 1000) (by omega) (by omega)]


theorem pyStrNat_four (y : Nat) (h1 : 1000 ≤ y) (h2 : y ≤ 9999) :
    pyStrNat y =
      [digitChar (y / 1000), digitChar (y / 100 % 10),
       digitChar (y / 10 % 10), digitChar (y % 10)] := by
  unfold pyStrNat
  rw [if_neg (by omega)]
  obtain ⟨f, hf⟩ : ∃ f, y = f + 4 := ⟨y - 4, by omega⟩
  rw [show (decDigitsAux y y : List Nat) = decDigitsAux (f + 4) y by rw [hf]]
  rw [decAux_digits4 f y h1 h2]
  rfl

theorem pyStrNat_two (n : Nat) (h1 : 10 ≤ n) (h2 : n ≤ 99) :
    pyStrNat n = [digitChar (n / 10), digitChar (n % 10)] := by
  unfold pyStrNat
  rw [if_neg (by omega)]
  obtain ⟨f, hf⟩ : ∃ f, n = f + 2 := ⟨n - 2, by omega⟩
  rw [show (decDigitsAux n n : List Nat) = decDigitsAux (f + 2) n by rw [hf]]
  rw [decAux_digits2 f n h1 h2]
  rfl

theorem pad2_chars (n : Nat) (h : n ≤ 99) :
    pad2 n = [digitChar (n / 10), digitChar (n % 10)] := by
  unfold pad2
  by_cases h10 : n < 10
  · rw [if_pos h10]
    have e1 : n / 10 = 0 := by omega
    have e2 : n % 10 = n := by omega
    rw [e1, e2]
    rfl
  · rw [if_neg h10, pyStrNat_two n (by omega) h]

theorem digitVal_digitChar (d : Nat) (h : d < 10) :
    digitVal? (digitChar d) = some d := by
  interval_cases d <;> rfl

theorem parseFixedNat_digit (k acc d : Nat) (cs : List Char) (h : d < 10) :
    parseFixedNat (k + 1) acc (digitChar d :: cs) = parseFixedNat k (acc * 10 + d) cs := by
  simp [parseFixedNat, digitVal_digitChar d h]

theorem parse_year (y : Nat) (rest : List Char) (h1 : 1000 ≤ y) (h2 : y ≤ 9999) :
    parseFixedNat 4 0 (pyStrNat y ++ rest) = some (y, rest) := by
  rw [pyStrNat_four y h1 h2]
  simp only [List.cons_append, List.nil_append]
  rw [parseFixedNat_digit _ _ _ _ (by omega)]
  rw [parseFixedNat_digit _ _ _ _ (by omega)]
  rw [parseFixedNat_digit _ _ _ _ (by omega)]
  rw [parseFixedNat_digit _ _ _ _ (by omega)]
  simp only [parseFixedNat, Option.some.injEq, Prod.mk.injEq]
  exact ⟨by omega, trivial⟩

theorem parse_pad2 (n : Nat) (rest : List Char) (h : n ≤ 99) :
    parseFixedNat 2 0 (pad2 n ++ rest) = some (n, rest) := by
  rw [pad2_chars n h]
  simp only [List.cons_append, List.nil_append]
  rw [parseFixedNat_digit _ _ _ _ (by omega)]
  rw [parseFixedNat_digit _ _ _ _ (by omega)]
  simp only [parseFixedNat, Option.some.injEq, Prod.mk.injEq]
  exact ⟨by omega, trivial⟩

theorem stripLit_self (p l : List Char) : stripLit p (p ++ l) = some l := by
  induction p with
  | nil => rfl
  | cons c cs ih => simp [stripLit, ih]

theorem stripLit_none_append (pat l1 l2 : List Char) (hlen : pat.length ≤ l1.length)
    (h : stripLit pat l1 = none) : stripLit pat (l1 ++ l2) = none := by
  induction pat generalizing l1 with
  | nil => simp [stripLit] at h
  | cons p ps ih =>
    cases l1 with
    | nil => simp at hlen
    | cons c cs =>
      rw [List.cons_append]
      unfold stripLit at h ⊢
      by_cases hc : c = p
      · rw [if_pos hc] at h ⊢
        exact ih cs (by simpa using hlen) h
      · rw [if_neg hc]

theorem matchDateAt_none_of_strip (l : List Char) (h : stripLit caPat l = none) :
    matchDateAt l = none := by
  unfold matchDateAt
  rw [h]

theorem matchDateAt_format (y m d : Nat) (rest : List Char)
    (hy1 : 1000 ≤ y) (hy2 : y ≤ 9999) (hm : m ≤ 99) (hd : d ≤ 99) :
    matchDateAt (caPat ++ (formatDateChars y m d ++ rest)) = some (y, m, d) := by
  have e1 : parseFixedNat 4 0
      (pyStrNat y ++ ('-' :: (pad2 m ++ '-' :: (pad2 d ++ rest)))) =
      some (y, '-' :: (pad2 m ++ '-' :: (pad2 d ++ rest))) :=
    parse_year y _ hy1 hy2
  have e2 : parseFixedNat 2 0 (pad2 m ++ ('-' :: (pad2 d ++ rest))) =
      some (m, '-' :: (pad2 d ++ rest)) := parse_pad2 m _ hm
  have e3 : parseFixedNat 2 0 (pad2 d ++ rest) = some (d, rest) := parse_pad2 d _ hd
  unfold matchDateAt
  rw [stripLit_self]
  unfold formatDateChars
  simp only [List.append_assoc, List.cons_append]
  rw [e1]
  simp only []
  rw [e2]
  simp only []
  rw [e3]

theorem findDateMatch_head (l : List Char) (r : Nat × Nat × Nat)
    (hne : l ≠ []) (h : matchDateAt l = some r) : findDateMatch l = some r := by
  cases l with
  | nil => exact absurd rfl hne
  | cons c cs =>
    unfold findDateMatch
    rw [h]

theorem findDateMatch_skip (pre tail : List Char)
    (h : ∀ p, p < pre.length → matchDateAt (pre.drop p ++ tail) = none) :
    findDateMatch (pre ++ tail) = findDateMatch tail := by
  induction pre with
  | nil => rfl
  | cons c cs ih =>
    rw [List.cons_append]
    have h0 := h 0 (by simp)
    simp only [List.drop_zero, List.cons_append] at h0
    show (match matchDateAt (c :: (cs ++ tail)) with
          | some r => some r
          | none => findDateMatch (cs ++ tail)) = findDateMatch tail
    rw [h0]
    exact ih (fun p hp => by simpa using h (p + 1) (by simpa using hp))

theorem urlBase_positions_fail :
    ∀ p, p < 25 → stripLit caPat (urlBase.drop p ++ caPat) = none := by decide

theorem extract_roundtrip (y m d : Nat) (hy1 : 1000 ≤ y) (hy2 : y ≤ 9999)
    (hm1 : 1 ≤ m) (hm2 : m ≤ 12) (hd1 : 1 ≤ d) (hd2 : d ≤ days_in_month y m) :
    extract_date_from_url (dayUrl y m d) = some (y, m, d) := by
  have hd99 : d ≤ 99 := by
    refine le_trans hd2 ?_
    unfold days_in_month
    split_ifs <;> omega
  have hfail : ∀ p, p < urlBase.length →
      matchDateAt (urlBase.drop p ++ (caPat ++ (formatDateChars y m d ++ ['/']))) = none := by
    intro p hp
    apply matchDateAt_none_of_strip
    rw [← List.append_assoc]
    apply stripLit_none_append caPat (urlBase.drop p ++ caPat) _ (by simp)
    exact urlBase_positions_fail p (by simpa using hp)
  have hmatch : matchDateAt (caPat ++ (formatDateChars y m d ++ ['/'])) = some (y, m, d) :=
    matchDateAt_format y m d ['/'] hy1 hy2 (by omega) hd99
  have hfind : findDateMatch (dayUrlChars y m d) = some (y, m, d) := by
    unfold dayUrlChars urlPrefixChars
    rw [List.append_assoc]
    rw [findDateMatch_skip urlBase _ hfail]
    exact findDateMatch_head _ _ (by simp [caPat]) hmatch
  unfold extract_date_from_url dayUrl
  rw [show (String.mk (dayUrlChars y m d)).data = dayUrlChars y m d from rfl]
  rw [hfind]
  have hvalid : validYMD y m d = true := by
    unfold validYMD
    simp only [Bool.and_eq_true, decide_eq_true_eq]
    exact ⟨⟨⟨⟨by omega, hm1⟩, hm2⟩, hd1⟩, hd2⟩
  show (if validYMD y m d = true then some (y, m, d) else none) = some (y, m, d)
  rw [if_pos hvalid]

/-- C4 counterexample: the claim quantifies over every year, but the URL
date component only round-trips for four-digit years.  For year 999 the
deriver emits `.../999-01-01/`, whose date component the repository's own
`extract_date_from_url` regex (`\d{4}-\d{2}-\d{2}`) fails to recover. -/
theorem c4_counterexample :
    (generate_url 999 1 none).length = 31 ∧
    (generate_url 999 1 none)[0]? = some (dayUrl 999 1 1) ∧
    extract_date_from_url (dayUrl 999 1 1) = none := by
  refine ⟨by decide, by decide, by decide⟩

/-- C4 amended: for every month `1..12` and every four-digit year
(`1000..9999`), the deriver returns exactly `days_in_month` identifiers —
the month lengths being exactly those the claim enumerates (31/30/29/28
with the leap rule) — in ascending day order, the `i`-th URL being the
day `i+1` URL, and each URL's date component round-trips through
`extract_date_from_url` to the same `(year, month, day)`. -/
theorem c4_month_urls_count_and_roundtrip (y m : Nat)
    (hm1 : 1 ≤ m) (hm2 : m ≤ 12) (hy1 : 1000 ≤ y) (hy2 : y ≤ 9999) :
    (generate_url y m none).length = days_in_month y m ∧
    days_in_month y m = specMonthLength y m ∧
    (∀ i, i < days_in_month y m →
      (generate_url y m none)[i]? = some (dayUrl y m (i + 1)) ∧
      extract_date_from_url (dayUrl y m (i + 1)) = some (y, m, i + 1)) := by
  refine ⟨?_, ?_, ?_⟩
  · simp [generate_url, monthUrls]
  · interval_cases m <;> simp [days_in_month, specMonthLength]
  · intro i hi
    constructor
    · simp [generate_url, monthUrls, List.getElem?_map, List.getElem?_range, hi]
    · exact extract_roundtrip y m (i + 1) hy1 hy2 hm1 hm2 (by omega) (by omega)

/-- Witness for C4 at February 2024 (a leap year). -/
theorem c4_witness :
    (1 ≤ 2 ∧ 2 ≤ 12 ∧ 1000 ≤ 2024 ∧ 2024 ≤ 9999) ∧
    ((generate_url 2024 2 none).length = days_in_month 2024 2 ∧
     days_in_month 2024 2 = specMonthLength 2024 2 ∧
     (∀ i, i < days_in_month 2024 2 →
       (generate_url 2024 2 none)[i]? = some (dayUrl 2024 2 (i + 1)) ∧
       extract_date_from_url (dayUrl 2024 2 (i + 1)) = some (2024, 2, i + 1))) :=
  ⟨by decide,
   c4_month_urls_count_and_roundtrip 2024 2 (by decide) (by decide) (by decide) (by decide)⟩

/-! ### Claim C9 -/

/-- Core link-count fact shared by the four assemblers: in a well-formed
store, the link rows attached to the freshly allocated practice-set id
are exactly the ones the assembly just inserted. -/
theorem countLinks_core (s : RelState) (qids : List Nat) (linkOk : Nat → Bool)
    (hwf : RelWF s) (hfilter : (qids.filter linkOk).length = qids.length) :
    ((s.practice_set_questions ++
        (qids.filter linkOk).map (fun q => (s.nextPracticeSetId, q))).filter
      (fun l => decide (l.1 = s.nextPracticeSetId))).length = qids.length := by
  rw [List.filter_append]
  have hold : s.practice_set_questions.filter
      (fun l => decide (l.1 = s.nextPracticeSetId)) = [] := by
    rw [List.filter_eq_nil_iff]
    intro l hl
    have := hwf l hl
    simp only [decide_eq_true_eq]
    omega
  have hnew : ((qids.filter linkOk).map
        (fun q => (s.nextPracticeSetId, q))).filter
      (fun l => decide (l.1 = s.nextPracticeSetId)) =
      (qids.filter linkOk).map (fun q => (s.nextPracticeSetId, q)) := by
    rw [List.filter_eq_self]
    intro l hl
    obtain ⟨q, hq2, rfl⟩ := List.mem_map.mp hl
    simp
  rw [hold, hnew]
  simp [hfilter]

/-- Every assembler operation, on every scope, only appends practice-set
rows: rows already present (and in particular their `total_questions`)
are never modified. -/
theorem assembler_append_only (s2 : RelState) (dt my wt rt : String)
    (sk tp rsk sbn : Option Nat) (q : List Nat) (lo : Nat → Bool) :
    (∃ extra, (create_daily_practice_set s2 dt sk tp q lo).2.practice_sets =
      s2.practice_sets ++ extra) ∧
    (∃ extra, (create_monthly_practice_set s2 my sk q lo).2.practice_sets =
      s2.practice_sets ++ extra) ∧
    (∃ extra, (create_weekly_practice_set s2 wt rsk q lo).2.practice_sets =
      s2.practice_sets ++ extra) ∧
    (∃ extra, (create_date_range_practice_set s2 rt sbn rsk q lo).2.practice_sets =
      s2.practice_sets ++ extra) := by
  refine ⟨?_, ?_, ?_, ?_⟩
  · cases sk with
    | none => exact ⟨[], by simp [create_daily_practice_set]⟩
    | some k =>
      cases tp with
      | none => exact ⟨[], by simp [create_daily_practice_set]⟩
      | some t =>
        by_cases hq : q.length = 0
        · exact ⟨[], by simp [create_daily_practice_set, hq]⟩
        · exact ⟨[⟨s2.nextPracticeSetId, dt ++ " Current Affairs", k, q.length⟩],
            by simp [create_daily_practice_set, hq, create_practice_set,
              add_questions_to_practice_set]⟩
  · cases sk with
    | none => exact ⟨[], by simp [create_monthly_practice_set]⟩
    | some k =>
      by_cases hq : q.length = 0
      · exact ⟨[], by simp [create_monthly_practice_set, hq]⟩
      · exact ⟨[⟨s2.nextPracticeSetId, my ++ " Monthly Current Affairs", k, q.length⟩],
          by simp [create_monthly_practice_set, hq, create_practice_set,
            add_questions_to_practice_set]⟩
  · by_cases hq : q.length = 0
    · exact ⟨[], by simp [create_weekly_practice_set, hq]⟩
    · cases rsk with
      | none => exact ⟨[], by simp [create_weekly_practice_set, hq]⟩
      | some k =>
        exact ⟨[⟨s2.nextPracticeSetId, wt, k, q.length⟩],
          by simp [create_weekly_practice_set, hq, create_practice_set,
            add_questions_to_practice_set]⟩
  · by_cases hq : q.length = 0
    · exact ⟨[], by simp [create_date_range_practice_set, hq]⟩
    · cases sbn with
      | some k =>
        exact ⟨[⟨s2.nextPracticeSetId, rt, k, q.length⟩],
          by simp [create_date_range_practice_set, hq, create_practice_set,
            add_questions_to_practice_set]⟩
      | none =>
        cases rsk with
        | none => exact ⟨[], by simp [create_date_range_practice_set, hq]⟩
        | some k =>
          exact ⟨[⟨s2.nextPracticeSetId, rt, k, q.length⟩],
            by simp [create_date_range_practice_set, hq, create_practice_set,
              add_questions_to_practice_set]⟩

/-- C9: for every successful assembly of any scope (single date, single
month, past week, explicit date range), the created PracticeSet row's
`total_questions` is fixed at creation to the number of resolved question
ids and equals the number of link rows inserted for that set; and no
assembler operation on any scope ever modifies an existing row afterwards
(they only append), so the value is never updated. -/
theorem c9_total_questions_equals_links (s : RelState)
    (date_text month_year weekly_title range_title : String)
    (skillId topicId recentSkill skillByName : Option Nat)
    (qids : List Nat) (linkOk : Nat → Bool) (hwf : RelWF s) :
    ((create_daily_practice_set s date_text skillId topicId qids linkOk).1 = true →
      ∃ row : PracticeSetRow,
        (create_daily_practice_set s date_text skillId topicId
            qids linkOk).2.practice_sets = s.practice_sets ++ [row] ∧
        row.total_questions = qids.length ∧
        countLinks (create_daily_practice_set s date_text skillId topicId
            qids linkOk).2 row.psid = qids.length) ∧
    ((create_monthly_practice_set s month_year skillId qids linkOk).1 = true →
      ∃ row : PracticeSetRow,
        (create_monthly_practice_set s month_year skillId
            qids linkOk).2.practice_sets = s.practice_sets ++ [row] ∧
        row.total_questions = qids.length ∧
        countLinks (create_monthly_practice_set s month_year skillId
            qids linkOk).2 row.psid = qids.length) ∧
    ((create_weekly_practice_set s weekly_title recentSkill qids linkOk).1 = true →
      ∃ row : PracticeSetRow,
        (create_weekly_practice_set s weekly_title recentSkill
            qids linkOk).2.practice_sets = s.practice_sets ++ [row] ∧
        row.total_questions = qids.length ∧
        countLinks (create_weekly_practice_set s weekly_title recentSkill
            qids linkOk).2 row.psid = qids.length) ∧
    ((create_date_range_practice_set s range_title skillByName recentSkill
        qids linkOk).1 = true →
      ∃ row : PracticeSetRow,
        (create_date_range_practice_set s range_title skillByName recentSkill
            qids linkOk).2.practice_sets = s.practice_sets ++ [row] ∧
        row.total_questions = qids.length ∧
        countLinks (create_date_range_practice_set s range_title skillByName
            recentSkill qids linkOk).2 row.psid = qids.length) ∧
    (∀ (s2 : RelState) (dt2 my2 wt2 rt2 : String) (sk2 tp2 rsk2 sbn2 : Option Nat)
        (q2 : List Nat) (lo2 : Nat → Bool),
      (∃ extra, (create_daily_practice_set s2 dt2 sk2 tp2 q2 lo2).2.practice_sets =
        s2.practice_sets ++ extra) ∧
      (∃ extra, (create_monthly_practice_set s2 my2 sk2 q2 lo2).2.practice_sets =
        s2.practice_sets ++ extra) ∧
      (∃ extra, (create_weekly_practice_set s2 wt2 rsk2 q2 lo2).2.practice_sets =
        s2.practice_sets ++ extra) ∧
      (∃ extra, (create_date_range_practice_set s2 rt2 sbn2 rsk2
          q2 lo2).2.practice_sets = s2.practice_sets ++ extra)) := by
  refine ⟨?_, ?_, ?_, ?_,
    fun s2 dt2 my2 wt2 rt2 sk2 tp2 rsk2 sbn2 q2 lo2 =>
      assembler_append_only s2 dt2 my2 wt2 rt2 sk2 tp2 rsk2 sbn2 q2 lo2⟩
  · intro hs
    cases skillId with
    | none => simp [create_daily_practice_set] at hs
    | some sk =>
      cases topicId with
      | none => simp [create_daily_practice_set] at hs
      | some tp =>
        by_cases hq : qids.length = 0
        · simp [create_daily_practice_set, hq] at hs
        · have hfilter : (qids.filter linkOk).length = qids.length := by
            simpa [create_daily_practice_set, hq, create_practice_set,
              add_questions_to_practice_set] using hs
          have hsets : (create_daily_practice_set s date_text (some sk) (some tp)
                qids linkOk).2.practice_sets =
              s.practice_sets ++
                [⟨s.nextPracticeSetId, date_text ++ " Current Affairs", sk,
                  qids.length⟩] := by
            simp [create_daily_practice_set, hq, create_practice_set,
              add_questions_to_practice_set]
          have hlinks : (create_daily_practice_set s date_text (some sk) (some tp)
                qids linkOk).2.practice_set_questions =
              s.practice_set_questions ++
                (qids.filter linkOk).map (fun q => (s.nextPracticeSetId, q)) := by
            simp [create_daily_practice_set, hq, create_practice_set,
              add_questions_to_practice_set]
          have hcount : countLinks (create_daily_practice_set s date_text (some sk)
                (some tp) qids linkOk).2 s.nextPracticeSetId = qids.length := by
            unfold countLinks
            rw [hlinks]
            exact countLinks_core s qids linkOk hwf hfilter
          exact ⟨⟨s.nextPracticeSetId, date_text ++ " Current Affairs", sk,
            qids.length⟩, hsets, rfl, hcount⟩
  · intro hs
    cases skillId with
    | none => simp [create_monthly_practice_set] at hs
    | some sk =>
      by_cases hq : qids.length = 0
      · simp [create_monthly_practice_set, hq] at hs
      · have hfilter : (qids.filter linkOk).length = qids.length := by
          simpa [create_monthly_practice_set, hq, create_practice_set,
            add_questions_to_practice_set] using hs
        have hsets : (create_monthly_practice_set s month_year (some sk)
              qids linkOk).2.practice_sets =
            s.practice_sets ++
              [⟨s.nextPracticeSetId, month_year ++ " Monthly Current Affairs", sk,
                qids.length⟩] := by
          simp [create_monthly_practice_set, hq, create_practice_set,
            add_questions_to_practice_set]
        have hlinks : (create_monthly_practice_set s month_year (some sk)
              qids linkOk).2.practice_set_questions =
            s.practice_set_questions ++
              (qids.filter linkOk).map (fun q => (s.nextPracticeSetId, q)) := by
          simp [create_monthly_practice_set, hq, create_practice_set,
            add_questions_to_practice_set]
        have hcount : countLinks (create_monthly_practice_set s month_year (some sk)
              qids linkOk).2 s.nextPracticeSetId = qids.length := by
          unfold countLinks
          rw [hlinks]
          exact countLinks_core s qids linkOk hwf hfilter
        exact ⟨⟨s.nextPracticeSetId, month_year ++ " Monthly Current Affairs", sk,
          qids.length⟩, hsets, rfl, hcount⟩
  · intro hs
    by_cases hq : qids.length = 0
    · simp [create_weekly_practice_set, hq] at hs
    · cases recentSkill with
      | none => simp [create_weekly_practice_set, hq] at hs
      | some sk =>
        have hfilter : (qids.filter linkOk).length = qids.length := by
          simpa [create_weekly_practice_set, hq, create_practice_set,
            add_questions_to_practice_set] using hs
        have hsets : (create_weekly_practice_set s weekly_title (some sk)
              qids linkOk).2.practice_sets =
            s.practice_sets ++
              [⟨s.nextPracticeSetId, weekly_title, sk, qids.length⟩] := by
          simp [create_weekly_practice_set, hq, create_practice_set,
            add_questions_to_practice_set]
        have hlinks : (create_weekly_practice_set s weekly_title (some sk)
              qids linkOk).2.practice_set_questions =
            s.practice_set_questions ++
              (qids.filter linkOk).map (fun q => (s.nextPracticeSetId, q)) := by
          simp [create_weekly_practice_set, hq, create_practice_set,
            add_questions_to_practice_set]
        have hcount : countLinks (create_weekly_practice_set s weekly_title (some sk)
              qids linkOk).2 s.nextPracticeSetId = qids.length := by
          unfold countLinks
          rw [hlinks]
          exact countLinks_core s qids linkOk hwf hfilter
        exact ⟨⟨s.nextPracticeSetId, weekly_title, sk, qids.length⟩,
          hsets, rfl, hcount⟩
  · intro hs
    by_cases hq : qids.length = 0
    · simp [create_date_range_practice_set, hq] at hs
    · cases hbn : skillByName with
      | some sk =>
        rw [hbn] at hs
        have hfilter : (qids.filter linkOk).length = qids.length := by
          simpa [create_date_range_practice_set, hq, create_practice_set,
            add_questions_to_practice_set] using hs
        have hsets : (create_date_range_practice_set s range_title (some sk)
              recentSkill qids linkOk).2.practice_sets =
            s.practice_sets ++
              [⟨s.nextPracticeSetId, range_title, sk, qids.length⟩] := by
          simp [create_date_range_practice_set, hq, create_practice_set,
            add_questions_to_practice_set]
        have hlinks : (create_date_range_practice_set s range_title (some sk)
              recentSkill qids linkOk).2.practice_set_questions =
            s.practice_set_questions ++
              (qids.filter linkOk).map (fun q => (s.nextPracticeSetId, q)) := by
          simp [create_date_range_practice_set, hq, create_practice_set,
            add_questions_to_practice_set]
        have hcount : countLinks (create_date_range_practice_set s range_title
              (some sk) recentSkill qids linkOk).2 s.nextPracticeSetId =
            qids.length := by
          unfold countLinks
          rw [hlinks]
          exact countLinks_core s qids linkOk hwf hfilter
        exact ⟨⟨s.nextPracticeSetId, range_title, sk, qids.length⟩,
          hsets, rfl, hcount⟩
      | none =>
        rw [hbn] at hs
        cases hrk : recentSkill with
        | none =>
          rw [hrk] at hs
          simp [create_date_range_practice_set, hq] at hs
        | some sk =>
          rw [hrk] at hs
          have hfilter : (qids.filter linkOk).length = qids.length := by
            simpa [create_date_range_practice_set, hq, create_practice_set,
              add_questions_to_practice_set] using hs
          have hsets : (create_date_range_practice_set s range_title none
                (some sk) qids linkOk).2.practice_sets =
              s.practice_sets ++
                [⟨s.nextPracticeSetId, range_title, sk, qids.length⟩] := by
            simp [create_date_range_practice_set, hq, create_practice_set,
              add_questions_to_practice_set]
          have hlinks : (create_date_range_practice_set s range_title none
                (some sk) qids linkOk).2.practice_set_questions =
              s.practice_set_questions ++
                (qids.filter linkOk).map (fun q => (s.nextPracticeSetId, q)) := by
            simp [create_date_range_practice_set, hq, create_practice_set,
              add_questions_to_practice_set]
          have hcount : countLinks (create_date_range_practice_set s range_title
                none (some sk) qids linkOk).2 s.nextPracticeSetId =
              qids.length := by
            unfold countLinks
            rw [hlinks]
            exact countLinks_core s qids linkOk hwf hfilter
          exact ⟨⟨s.nextPracticeSetId, range_title, sk, qids.length⟩,
            hsets, rfl, hcount⟩

/-- Witness for C9: from a fresh store, assembling 15 ingested questions
under each of the four scopes yields one PracticeSet row with
`total_questions = 15` and exactly 15 link rows. -/
theorem c9_witness :
    RelWF ⟨1, [], []⟩ ∧
    (∃ row : PracticeSetRow,
      (create_daily_practice_set ⟨1, [], []⟩ "02 March 2024" (some 8) (some 9)
          [1, 2, 3, 4, 5, 6, 7, 8, 9, 10, 11, 12, 13, 14, 15]
          (fun _ => true)).2.practice_sets =
        (⟨1, [], []⟩ : RelState).practice_sets ++ [row] ∧
      row.total_questions =
        ([1, 2, 3, 4, 5, 6, 7, 8, 9, 10, 11, 12, 13, 14, 15] : List Nat).length ∧
      countLinks (create_daily_practice_set ⟨1, [], []⟩ "02 March 2024" (some 8) (some 9)
          [1, 2, 3, 4, 5, 6, 7, 8, 9, 10, 11, 12, 13, 14, 15] (fun _ => true)).2
        row.psid =
        ([1, 2, 3, 4, 5, 6, 7, 8, 9, 10, 11, 12, 13, 14, 15] : List Nat).length) ∧
    (∃ row : PracticeSetRow,
      (create_monthly_practice_set ⟨1, [], []⟩ "March 2024" (some 8)
          [1, 2, 3, 4, 5, 6, 7, 8, 9, 10, 11, 12, 13, 14, 15]
          (fun _ => true)).2.practice_sets =
        (⟨1, [], []⟩ : RelState).practice_sets ++ [row] ∧
      row.total_questions =
        ([1, 2, 3, 4, 5, 6, 7, 8, 9, 10, 11, 12, 13, 14, 15] : List Nat).length ∧
      countLinks (create_monthly_practice_set ⟨1, [], []⟩ "March 2024" (some 8)
          [1, 2, 3, 4, 5, 6, 7, 8, 9, 10, 11, 12, 13, 14, 15] (fun _ => true)).2
        row.psid =
        ([1, 2, 3, 4, 5, 6, 7, 8, 9, 10, 11, 12, 13, 14, 15] : List Nat).length) ∧
    (∃ row : PracticeSetRow,
      (create_weekly_practice_set ⟨1, [], []⟩ "Weekly Current Affairs" (some 8)
          [1, 2, 3, 4, 5, 6, 7, 8, 9, 10, 11, 12, 13, 14, 15]
          (fun _ => true)).2.practice_sets =
        (⟨1, [], []⟩ : RelState).practice_sets ++ [row] ∧
      row.total_questions =
        ([1, 2, 3, 4, 5, 6, 7, 8, 9, 10, 11, 12, 13, 14, 15] : List Nat).length ∧
      countLinks (create_weekly_practice_set ⟨1, [], []⟩ "Weekly Current Affairs" (some 8)
          [1, 2, 3, 4, 5, 6, 7, 8, 9, 10, 11, 12, 13, 14, 15] (fun _ => true)).2
        row.psid =
        ([1, 2, 3, 4, 5, 6, 7, 8, 9, 10, 11, 12, 13, 14, 15] : List Nat).length) ∧
    (∃ row : PracticeSetRow,
      (create_date_range_practice_set ⟨1, [], []⟩ "Range Current Affairs" (some 8)
          (some 8) [1, 2, 3, 4, 5, 6, 7, 8, 9, 10, 11, 12, 13, 14, 15]
          (fun _ => true)).2.practice_sets =
        (⟨1, [], []⟩ : RelState).practice_sets ++ [row] ∧
      row.total_questions =
        ([1, 2, 3, 4, 5, 6, 7, 8, 9, 10, 11, 12, 13, 14, 15] : List Nat).length ∧
      countLinks (create_date_range_practice_set ⟨1, [], []⟩ "Range Current Affairs"
          (some 8) (some 8) [1, 2, 3, 4, 5, 6, 7, 8, 9, 10, 11, 12, 13, 14, 15]
          (fun _ => true)).2 row.psid =
        ([1, 2, 3, 4, 5, 6, 7, 8, 9, 10, 11, 12, 13, 14, 15] : List Nat).length) := by
  have hwf0 : RelWF ⟨1, [], []⟩ := by intro l hl; simp at hl
  have T := c9_total_questions_equals_links ⟨1, [], []⟩ "02 March 2024" "March 2024"
    "Weekly Current Affairs" "Range Current Affairs" (some 8) (some 9) (some 8) (some 8)
    [1, 2, 3, 4, 5, 6, 7, 8, 9, 10, 11, 12, 13, 14, 15] (fun _ => true) hwf0
  exact ⟨hwf0, T.1 (by rfl), T.2.1 (by rfl), T.2.2.1 (by rfl), T.2.2.2.1 (by rfl)⟩
